import Mathlib

/-!
Verification development for the SlicerHDBrainExtraction module
(`HDBrainExtractionTool/HDBrainExtractionTool.py`).

The module is orchestration glue around the external HD-BET tool.  We embed
the pieces the properties speak about:

* Python scalar values relevant to the `device` argument (`None`, strings,
  non-negative integers) together with Python truthiness, because
  `process` tests `if not device:` which also catches the integer `0`;
* the parameter node (string key/value store plus three node references)
  and `setDefaultParameters`;
* the widget's GUI synchronisation functions
  `updateGUIFromParameterNode` / `updateParameterNodeFromGUI` with their
  re-entrancy flag `_updatingGUIFromParameterNode`;
* the `process` routine as a function from its arguments and an environment
  (CUDA availability, the external tool's success, the data read back from
  files) to an outcome record carrying the error raised (if any), the trace
  of file-system effects, the set of temp files left on disk, and the final
  contents of the output nodes.

External collaborators (CUDA probing, `run_hd_bet`, storage-node reads) are
opaque to the module; their observable behaviour is supplied by the `Env`
record.  The behaviour assumed of `run_hd_bet` follows its documented
contract: on success it writes the masked volume file iff `bet` and the mask
file iff `keep_mask`; on failure it raises before producing output files.
-/

namespace HDBET

/-- Python values that can flow into the `device` parameter of
`HDBrainExtractionToolLogic.process`: `None`, a string, or a non-negative
integer GPU index. -/
inductive PyVal where
  | pyNone : PyVal
  | pyStr : String → PyVal
  | pyInt : Nat → PyVal
deriving DecidableEq, Repr

/-- Python truthiness (`if not device:`): `None`, the empty string and the
integer `0` are falsy. -/
def pyFalsy : PyVal → Bool
  | PyVal.pyNone => true
  | PyVal.pyStr s => s = ""
  | PyVal.pyInt n => n = 0

/-- Device resolution, lines 335-344 of the source: a falsy `device` is
replaced by `"auto"`, and `"auto"` then resolves to GPU index `0` when
`torchLogic.cuda` reports a CUDA device, else to `"cpu"`. -/
def resolveDevice (cuda : Bool) (device : PyVal) : PyVal :=
  let device := if pyFalsy device then PyVal.pyStr "auto" else device
  if device = PyVal.pyStr "auto" then
    (if cuda then PyVal.pyInt 0 else PyVal.pyStr "cpu")
  else device

/-- Mode selection, lines 368-375 of the source: any resolved device other
than the string `"cpu"` selects `("accurate", augmentation on)`; the string
`"cpu"` selects `("fast", augmentation off)`. -/
def modeAndAugmentation (device : PyVal) : String × Bool :=
  if device ≠ PyVal.pyStr "cpu" then ("accurate", true) else ("fast", false)

/-- String parameters of a vtkMRMLScriptedModuleNode; `GetParameter` returns
the empty string for an absent key. -/
def getParameter (ps : List (String × String)) (k : String) : String :=
  match ps.find? (fun kv => kv.1 == k) with
  | some kv => kv.2
  | none => ""

/-- `SetParameter`: replace the value stored under an existing key, or append
the key/value pair. -/
def setParameter (ps : List (String × String)) (k v : String) :
    List (String × String) :=
  if ps.any (fun kv => kv.1 == k) then
    ps.map (fun kv => if kv.1 == k then (k, v) else kv)
  else ps ++ [(k, v)]

/-- Parameter node: string parameters plus the three node references the
module uses (`InputVolume`, `OutputVolume`, `OutputSegmentation`), each a
reference to a scene node identified here by a numeric id. -/
structure ParameterNode where
  params : List (String × String)
  inputVolume : Option Nat
  outputVolume : Option Nat
  outputSegmentation : Option Nat
deriving DecidableEq, Repr

/-- `HDBrainExtractionToolLogic.setDefaultParameters` (lines 310-315): set
`"Device"` to `"auto"` when the parameter is falsy (unset or empty). -/
def setDefaultParameters (parameterNode : ParameterNode) : ParameterNode :=
  if getParameter parameterNode.params "Device" = "" then
    { parameterNode with
      params := setParameter parameterNode.params "Device" "auto" }
  else parameterNode

/-- GUI widget state of `HDBrainExtractionToolWidget`: the three node
selectors (by current node id), the device combo box text, and the Apply
button state.  The base-name hints set at lines 196-198 play no role in any
property and are not modelled. -/
structure UIState where
  inputVolumeSelector : Option Nat
  outputVolumeSelector : Option Nat
  outputSegmentationSelector : Option Nat
  deviceComboBoxText : String
  applyButtonEnabled : Bool
  applyButtonToolTip : String
deriving DecidableEq, Repr

/-- Widget state: the observed parameter node (possibly `None`), the GUI, and
the re-entrancy guard `_updatingGUIFromParameterNode`. -/
structure WidgetState where
  parameterNode : Option ParameterNode
  ui : UIState
  updatingGUIFromParameterNode : Bool
deriving DecidableEq, Repr

/-- `updateParameterNodeFromGUI` (lines 203-219): returns immediately when
the parameter node is `None` or the re-entrancy flag is set; otherwise writes
the three selector ids and the device text into the parameter node in one
batched modification. -/
def updateParameterNodeFromGUI (s : WidgetState) : WidgetState :=
  match s.parameterNode with
  | none => s
  | some p =>
    if s.updatingGUIFromParameterNode then s
    else
      let p2 : ParameterNode :=
        { p with
          inputVolume := s.ui.inputVolumeSelector,
          outputVolume := s.ui.outputVolumeSelector,
          outputSegmentation := s.ui.outputSegmentationSelector,
          params := setParameter p.params "Device" s.ui.deviceComboBoxText }
      { s with parameterNode := some p2 }

/-- `updateGUIFromParameterNode` (lines 169-201): returns immediately when
the parameter node is `None` or the re-entrancy flag is set; otherwise sets
the flag, pushes the parameter node's references and device text into the
widgets, recomputes the Apply button state, and clears the flag.  Each
widget update fires its Qt change signal, which the widget connects to
`updateParameterNodeFromGUI` (lines 87-90); those signal dispatches are
modelled as explicit calls on the intermediate states.  The source reads
`self._parameterNode` live at lines 188-189; the model reads the current
state's node there (falling back to the entry snapshot in the unreachable
case that it disappeared). -/
def updateGUIFromParameterNode (s : WidgetState) : WidgetState :=
  match s.parameterNode with
  | none => s
  | some p =>
    if s.updatingGUIFromParameterNode then s
    else
      let s1 := { s with updatingGUIFromParameterNode := true }
      let s2 := updateParameterNodeFromGUI
        { s1 with ui := { s1.ui with inputVolumeSelector := p.inputVolume } }
      let s3 := updateParameterNodeFromGUI
        { s2 with ui := { s2.ui with outputVolumeSelector := p.outputVolume } }
      let s4 := updateParameterNodeFromGUI
        { s3 with ui :=
          { s3.ui with outputSegmentationSelector := p.outputSegmentation } }
      let s5 := updateParameterNodeFromGUI
        { s4 with ui :=
          { s4.ui with deviceComboBoxText := getParameter p.params "Device" } }
      let q := s5.parameterNode.getD p
      let enabled := q.inputVolume.isSome
        && (q.outputVolume.isSome || q.outputSegmentation.isSome)
      let s6 := { s5 with ui := { s5.ui with
          applyButtonEnabled := enabled,
          applyButtonToolTip := if enabled then "Extract brain"
            else "Select input volume and at least one output" } }
      { s6 with updatingGUIFromParameterNode := false }

/-- Contents of a volume node; the module never inspects voxel data, so the
content is an opaque tag. -/
structure VolumeNode where
  data : Nat
deriving DecidableEq, Repr

/-- One segment of a segmentation node, with the attributes the module
touches at lines 402-413. -/
structure Segment where
  name : String
  terminologyTag : String
  color : ℚ × ℚ × ℚ
deriving DecidableEq, Repr

/-- Contents of a segmentation node. -/
structure SegmentationNode where
  segments : List Segment
deriving DecidableEq, Repr

/-- The terminology context string set on the brain segment
(lines 404-411 of the source). -/
def brainTerminologyTag : String :=
  "Segmentation category and type - 3D Slicer General Anatomy list" ++
  "~SCT^123037004^Anatomical Structure" ++
  "~SCT^12738006^Brain" ++
  "~^^" ++
  "~Anatomic codes - DICOM master list" ++
  "~^^" ++
  "~^^"

/-- The fixed brain segment color (line 413 of the source). -/
def brainColor : ℚ × ℚ × ℚ :=
  (0.9803921568627451, 0.9803921568627451, 0.8823529411764706)

/-- Lines 401-413: fetch the 0th segment of the freshly read segmentation and
set its terminology tag, name and color.  On an empty segmentation the source
would dereference a null segment; the model leaves the empty list unchanged
(the branch is unreachable for HD-BET mask files, which hold one segment). -/
def applyBrainTerminology : List Segment → List Segment
  | [] => []
  | seg :: rest =>
    { seg with
      terminologyTag := brainTerminologyTag,
      name := "brain",
      color := brainColor } :: rest

/-- File-system and external-tool effects performed by `process`, in order. -/
inductive TraceEvent where
  | createTempDir : TraceEvent
  | writeVolume : String → TraceEvent
  | runTool (inputs outputs : List String) (mode : String) (device : PyVal)
      (postprocess doTta keepMask overwrite bet : Bool) : TraceEvent
  | removeFile : String → TraceEvent
  | readVolume : String → TraceEvent
  | readSegmentation : String → TraceEvent
deriving DecidableEq, Repr

/-- Behaviour of the external collaborators during one `process` call:
whether `torchLogic.cuda` reports a CUDA device, the fresh temp directory
path returned by `slicer.util.tempDirectory()`, whether `run_hd_bet` returns
normally or raises, the volume data read back from the output file, and the
segments read back from the mask file. -/
structure Env where
  cuda : Bool
  tempFolder : String
  toolSucceeds : Bool
  readVolumeData : Nat
  readSegments : List Segment
deriving DecidableEq, Repr

/-- Errors `process` can raise. -/
inductive ProcError where
  | valueError : String → ProcError
  | toolError : ProcError
deriving DecidableEq, Repr

/-- Observable outcome of one `process` call: the error raised (if any), the
ordered effect trace, the temp files still existing when the call ends
(normally or by exception), and the final contents of the two output nodes
(`none` when no node was passed; the passed-in contents when the node was
never touched). -/
structure ProcessOutcome where
  error : Option ProcError
  trace : List TraceEvent
  tempFiles : List String
  outputVolume : Option VolumeNode
  outputSegmentation : Option SegmentationNode
deriving DecidableEq, Repr

/-- Temp file path for the input volume (line 354). -/
def inputFilePath (tempFolder : String) : String :=
  tempFolder ++ "/hdbet-input.nii.gz"

/-- Temp file path for the masked output volume (line 355). -/
def outputFilePath (tempFolder : String) : String :=
  tempFolder ++ "/hdbet-output.nii.gz"

/-- Temp file path for the output mask (line 356). -/
def outputSegmentationFilePath (tempFolder : String) : String :=
  tempFolder ++ "/hdbet-output_mask.nii.gz"

/-- `HDBrainExtractionToolLogic.process` (lines 317-416).  The Python
default `device=None` corresponds to passing `PyVal.pyNone`.  Steps:
raise `ValueError` on a falsy input volume before any file I/O; resolve the
device (lines 335-344); create a temp directory and write the input volume
(lines 352-362); pick mode and augmentation (lines 368-375) and call
`run_hd_bet` (line 380), which on success creates the output volume file iff
`bet` and the mask file iff `keep_mask`, and on failure raises without
producing outputs; delete the input file (line 383); then, for each
requested output, read it back and delete its file (lines 387-399), setting
the brain terminology on the segmentation (lines 401-413). -/
def process (env : Env) (inputVolume : Option VolumeNode)
    (outputVolume : Option VolumeNode)
    (outputSegmentation : Option SegmentationNode)
    (device : PyVal) : ProcessOutcome :=
  if inputVolume.isNone then
    { error := some (ProcError.valueError "Input or output volume is invalid"),
      trace := [], tempFiles := [],
      outputVolume := outputVolume, outputSegmentation := outputSegmentation }
  else
    let device := resolveDevice env.cuda device
    let input_file := inputFilePath env.tempFolder
    let output_file := outputFilePath env.tempFolder
    let output_segmentation_file := outputSegmentationFilePath env.tempFolder
    let trace0 := [TraceEvent.createTempDir, TraceEvent.writeVolume input_file]
    let ma := modeAndAugmentation device
    let save_mask := outputSegmentation.isSome
    let save_masked_volume := outputVolume.isSome
    let trace1 := trace0 ++
      [TraceEvent.runTool [input_file] [output_file] ma.1 device
        true ma.2 save_mask true save_masked_volume]
    if env.toolSucceeds = false then
      { error := some ProcError.toolError, trace := trace1,
        tempFiles := [input_file],
        outputVolume := outputVolume,
        outputSegmentation := outputSegmentation }
    else
      let files1 := [input_file]
        ++ (if save_masked_volume then [output_file] else [])
        ++ (if save_mask then [output_segmentation_file] else [])
      let trace2 := trace1 ++ [TraceEvent.removeFile input_file]
      let files2 := files1.erase input_file
      let step3 :=
        match outputVolume with
        | some _ =>
          (trace2 ++ [TraceEvent.readVolume output_file,
            TraceEvent.removeFile output_file],
           files2.erase output_file,
           some (VolumeNode.mk env.readVolumeData))
        | none => (trace2, files2, none)
      let step4 :=
        match outputSegmentation with
        | some _ =>
          (step3.1 ++ [TraceEvent.readSegmentation output_segmentation_file,
            TraceEvent.removeFile output_segmentation_file],
           step3.2.1.erase output_segmentation_file,
           some (SegmentationNode.mk (applyBrainTerminology env.readSegments)))
        | none => (step3.1, step3.2.1, none)
      { error := none, trace := step4.1, tempFiles := step4.2.1,
        outputVolume := step3.2.2, outputSegmentation := step4.2.2 }

/-- The `run_hd_bet` invocations recorded in an outcome's trace. -/
def toolCalls (o : ProcessOutcome) : List TraceEvent :=
  o.trace.filter fun e =>
    match e with
    | TraceEvent.runTool _ _ _ _ _ _ _ _ _ => true
    | _ => false

/-- Concrete environment used to witness the theorems: no CUDA device, the
tool succeeds, and the mask file reads back as one segment (HD-BET masks are
binary). -/
def cexEnv : Env :=
  { cuda := false, tempFolder := "/tmp/hdbet", toolSucceeds := true,
    readVolumeData := 3,
    readSegments := [Segment.mk "Segment_1" "" (1, 0, 0)] }

/-- Environment in which `run_hd_bet` raises. -/
def failEnv : Env := { cexEnv with toolSucceeds := false }

/-- Concrete input volume for witnesses. -/
def cexInputVolume : VolumeNode := VolumeNode.mk 1

/-- Parameter node with no parameters and no references. -/
def emptyParameterNode : ParameterNode :=
  { params := [], inputVolume := none, outputVolume := none,
    outputSegmentation := none }

/-- Parameter node with an input volume, an output volume and a device
value. -/
def fullParameterNode : ParameterNode :=
  { params := [("Device", "cpu")], inputVolume := some 1,
    outputVolume := some 2, outputSegmentation := none }

/-- A GUI state with nothing selected. -/
def sampleUI : UIState :=
  { inputVolumeSelector := none, outputVolumeSelector := none,
    outputSegmentationSelector := none, deviceComboBoxText := "auto",
    applyButtonEnabled := false, applyButtonToolTip := "" }

/-- Widget state observing `fullParameterNode`, not currently refreshing. -/
def idleWidget : WidgetState :=
  { parameterNode := some fullParameterNode, ui := sampleUI,
    updatingGUIFromParameterNode := false }

/-- Widget state captured in the middle of a GUI refresh: the re-entrancy
flag is set. -/
def busyWidget : WidgetState :=
  { idleWidget with updatingGUIFromParameterNode := true }

/-- Reading a key back after `setParameter` yields the value just stored. -/
theorem getParameter_setParameter (ps : List (String × String)) (k v : String) :
    getParameter (setParameter ps k v) k = v := by
  induction ps with
  | nil => simp [getParameter, setParameter]
  | cons hd tl ih =>
    by_cases h : hd.1 = k
    · simp [getParameter, setParameter, h]
    · by_cases h2 : tl.any (fun kv => kv.1 == k) = true
      · have hset : setParameter tl k v =
            tl.map (fun kv => if kv.1 == k then (k, v) else kv) := by
          simp [setParameter, h2]
        have := ih
        rw [hset] at this
        simp [getParameter, setParameter, h, h2] at this ⊢
        exact this
      · have hset : setParameter tl k v = tl ++ [(k, v)] := by
          simp [setParameter, h2]
        have := ih
        rw [hset] at this
        simp [getParameter, setParameter, h, h2] at this ⊢
        exact this

/-- A call to `updateParameterNodeFromGUI` made while the re-entrancy flag is
set returns the state unchanged. -/
theorem updateParameterNodeFromGUI_busy (s : WidgetState)
    (h : s.updatingGUIFromParameterNode = true) :
    updateParameterNodeFromGUI s = s := by
  cases hp : s.parameterNode <;> simp [updateParameterNodeFromGUI, hp, h]

/-- The single `run_hd_bet` invocation every non-raising-entry `process` call
performs, with its mode, device and flag arguments. -/
theorem toolCalls_process (env : Env) (iv : VolumeNode) (ov : Option VolumeNode)
    (os : Option SegmentationNode) (dv : PyVal) :
    toolCalls (process env (some iv) ov os dv) =
      [TraceEvent.runTool [inputFilePath env.tempFolder]
        [outputFilePath env.tempFolder]
        (modeAndAugmentation (resolveDevice env.cuda dv)).1
        (resolveDevice env.cuda dv)
        true (modeAndAugmentation (resolveDevice env.cuda dv)).2
        os.isSome true ov.isSome] := by
  cases h : env.toolSucceeds <;> cases ov <;> cases os <;>
    simp [process, toolCalls, h, List.filter_append]

/-- Complete characterisation of a GUI refresh that actually runs (parameter
node present, flag clear): the selectors take the parameter node's values,
the Apply button state is recomputed, the parameter node itself is untouched
and the flag ends clear. -/
theorem updateGUIFromParameterNode_run (s : WidgetState) (p : ParameterNode)
    (hp : s.parameterNode = some p)
    (hf : s.updatingGUIFromParameterNode = false) :
    updateGUIFromParameterNode s =
      { parameterNode := some p,
        ui :=
          { inputVolumeSelector := p.inputVolume,
            outputVolumeSelector := p.outputVolume,
            outputSegmentationSelector := p.outputSegmentation,
            deviceComboBoxText := getParameter p.params "Device",
            applyButtonEnabled := p.inputVolume.isSome
              && (p.outputVolume.isSome || p.outputSegmentation.isSome),
            applyButtonToolTip :=
              if p.inputVolume.isSome
                  && (p.outputVolume.isSome || p.outputSegmentation.isSome)
              then "Extract brain"
              else "Select input volume and at least one output" },
        updatingGUIFromParameterNode := false } := by
  simp [updateGUIFromParameterNode, hp, hf, updateParameterNodeFromGUI]

/-- C1: in `process`, a device value of `"auto"` resolves to GPU index `0`
when the runtime detects a CUDA device and to `"cpu"` otherwise; and for
every resolved device, the external tool is invoked with mode `"accurate"`
and augmentation enabled when the resolved device is not `"cpu"`, and with
mode `"fast"` and augmentation disabled when it is `"cpu"`. -/
theorem device_resolution_and_mode_selection (env : Env) (iv : VolumeNode)
    (ov : Option VolumeNode) (os : Option SegmentationNode) (dv : PyVal) :
    resolveDevice env.cuda (PyVal.pyStr "auto")
        = (if env.cuda then PyVal.pyInt 0 else PyVal.pyStr "cpu")
    ∧ toolCalls (process env (some iv) ov os dv)
        = [TraceEvent.runTool [inputFilePath env.tempFolder]
            [outputFilePath env.tempFolder]
            (if resolveDevice env.cuda dv ≠ PyVal.pyStr "cpu"
              then "accurate" else "fast")
            (resolveDevice env.cuda dv)
            true
            (decide (resolveDevice env.cuda dv ≠ PyVal.pyStr "cpu"))
            os.isSome true ov.isSome] := by
  constructor
  · simp [resolveDevice, pyFalsy]
  · rw [toolCalls_process]
    by_cases hd : resolveDevice env.cuda dv = PyVal.pyStr "cpu" <;>
      simp [modeAndAugmentation, hd]

/-- C2 counterexample: calling `process` with the explicit GPU index `0` on
a machine without CUDA invokes the external tool on the fast branch with
augmentation disabled, because `if not device:` also catches the falsy
integer `0` and turns it into `"auto"`, which then resolves to `"cpu"`.
This refutes the claim that every explicit non-negative integer index runs
the accurate branch regardless of CUDA availability. -/
theorem gpu_index_zero_without_cuda_runs_fast :
    cexEnv.cuda = false
    ∧ toolCalls (process cexEnv (some cexInputVolume)
        (some (VolumeNode.mk 2)) none (PyVal.pyInt 0))
      = [TraceEvent.runTool ["/tmp/hdbet/hdbet-input.nii.gz"]
          ["/tmp/hdbet/hdbet-output.nii.gz"]
          "fast" (PyVal.pyStr "cpu") true false false true true] := by
  constructor
  · rfl
  · rfl

/-- C2 amended: an explicit GPU index `n` reaches the accurate branch with
augmentation enabled, and is passed through unchanged as the device, whenever
`n` is positive or CUDA is available; the index `0` alone on a CUDA-less
machine is rewritten to `"auto"` by the falsy-default check and falls to the
fast branch. -/
theorem explicit_gpu_index_accurate_branch (env : Env) (iv : VolumeNode)
    (ov : Option VolumeNode) (os : Option SegmentationNode) (n : Nat)
    (h : 0 < n ∨ env.cuda = true) :
    toolCalls (process env (some iv) ov os (PyVal.pyInt n))
      = [TraceEvent.runTool [inputFilePath env.tempFolder]
          [outputFilePath env.tempFolder]
          "accurate" (PyVal.pyInt n) true true os.isSome true ov.isSome] := by
  rw [toolCalls_process]
  have hres : resolveDevice env.cuda (PyVal.pyInt n) = PyVal.pyInt n := by
    cases n with
    | zero =>
      rcases h with h | h
      · exact absurd h (by simp)
      · simp [resolveDevice, pyFalsy, h]
    | succ m => simp [resolveDevice, pyFalsy]
  rw [hres]
  simp [modeAndAugmentation]

/-- C2 amended witness: explicit index `1` on a CUDA-less machine still runs
the accurate branch with augmentation. -/
theorem explicit_gpu_index_accurate_branch_witness :
    (0 < 1 ∨ cexEnv.cuda = true)
    ∧ toolCalls (process cexEnv (some cexInputVolume) none none (PyVal.pyInt 1))
      = [TraceEvent.runTool [inputFilePath cexEnv.tempFolder]
          [outputFilePath cexEnv.tempFolder]
          "accurate" (PyVal.pyInt 1) true true false true false] :=
  ⟨Or.inl (by decide),
   by simpa using explicit_gpu_index_accurate_branch cexEnv cexInputVolume
        none none 1 (Or.inl (by decide))⟩

/-- C3: a `process` call with a null input volume raises the invalid-argument
error and performs no file I/O: the trace is empty, no temp file exists, and
the output nodes are untouched. -/
theorem null_input_raises_without_io (env : Env) (ov : Option VolumeNode)
    (os : Option SegmentationNode) (dv : PyVal) :
    process env none ov os dv =
      { error := some (ProcError.valueError "Input or output volume is invalid"),
        trace := [], tempFiles := [],
        outputVolume := ov, outputSegmentation := os } := rfl

/-- C4: when `run_hd_bet` raises after the input volume has been written but
before producing output files, `process` propagates the failure, the input
temp file is never removed (it is still on disk and no remove event for it
was ever issued), and neither output node is populated or modified. -/
theorem tool_failure_leaks_input_and_leaves_outputs (env : Env)
    (iv : VolumeNode) (ov : Option VolumeNode) (os : Option SegmentationNode)
    (dv : PyVal) (h : env.toolSucceeds = false) :
    (process env (some iv) ov os dv).error = some ProcError.toolError
    ∧ (process env (some iv) ov os dv).tempFiles
        = [inputFilePath env.tempFolder]
    ∧ TraceEvent.removeFile (inputFilePath env.tempFolder)
        ∉ (process env (some iv) ov os dv).trace
    ∧ (process env (some iv) ov os dv).outputVolume = ov
    ∧ (process env (some iv) ov os dv).outputSegmentation = os := by
  refine ⟨?_, ?_, ?_, ?_, ?_⟩ <;> simp [process, h]

/-- C4 witness at a concrete failing environment. -/
theorem tool_failure_leaks_input_witness :
    failEnv.toolSucceeds = false
    ∧ (process failEnv (some cexInputVolume) (some (VolumeNode.mk 2)) none
        PyVal.pyNone).error = some ProcError.toolError
    ∧ (process failEnv (some cexInputVolume) (some (VolumeNode.mk 2)) none
        PyVal.pyNone).tempFiles = [inputFilePath failEnv.tempFolder]
    ∧ TraceEvent.removeFile (inputFilePath failEnv.tempFolder)
        ∉ (process failEnv (some cexInputVolume) (some (VolumeNode.mk 2)) none
            PyVal.pyNone).trace
    ∧ (process failEnv (some cexInputVolume) (some (VolumeNode.mk 2)) none
        PyVal.pyNone).outputVolume = some (VolumeNode.mk 2)
    ∧ (process failEnv (some cexInputVolume) (some (VolumeNode.mk 2)) none
        PyVal.pyNone).outputSegmentation = none :=
  ⟨rfl, tool_failure_leaks_input_and_leaves_outputs failEnv cexInputVolume
    (some (VolumeNode.mk 2)) none PyVal.pyNone rfl⟩

/-- C5: every `process` call in which the external tool succeeds finishes
without error and with no temp file left in the temp directory, for every
combination of requested outputs: each file the routine created and consumed
was deleted before returning. -/
theorem success_removes_all_temp_files (env : Env) (iv : VolumeNode)
    (ov : Option VolumeNode) (os : Option SegmentationNode) (dv : PyVal)
    (h : env.toolSucceeds = true) :
    (process env (some iv) ov os dv).error = none
    ∧ (process env (some iv) ov os dv).tempFiles = [] := by
  cases ov <;> cases os <;>
    refine ⟨?_, ?_⟩ <;> simp [process, h]

/-- C5 witness: a concrete successful run with both outputs requested leaves
no temp file. -/
theorem success_removes_all_temp_files_witness :
    cexEnv.toolSucceeds = true
    ∧ (process cexEnv (some cexInputVolume) (some (VolumeNode.mk 2))
        (some (SegmentationNode.mk [])) PyVal.pyNone).error = none
    ∧ (process cexEnv (some cexInputVolume) (some (VolumeNode.mk 2))
        (some (SegmentationNode.mk [])) PyVal.pyNone).tempFiles = [] :=
  ⟨rfl, success_removes_all_temp_files cexEnv cexInputVolume
    (some (VolumeNode.mk 2)) (some (SegmentationNode.mk [])) PyVal.pyNone rfl⟩

/-- C6: `setDefaultParameters` stores `"auto"` under `"Device"` when that
parameter is unset (empty) while leaving the node references untouched,
leaves the node entirely unchanged when `"Device"` already holds a non-empty
value, and is idempotent. -/
theorem setDefaultParameters_spec (p : ParameterNode) :
    (getParameter p.params "Device" = "" →
       getParameter (setDefaultParameters p).params "Device" = "auto"
       ∧ (setDefaultParameters p).inputVolume = p.inputVolume
       ∧ (setDefaultParameters p).outputVolume = p.outputVolume
       ∧ (setDefaultParameters p).outputSegmentation = p.outputSegmentation)
    ∧ (getParameter p.params "Device" ≠ "" → setDefaultParameters p = p)
    ∧ setDefaultParameters (setDefaultParameters p) = setDefaultParameters p := by
  by_cases h : getParameter p.params "Device" = ""
  · refine ⟨fun _ => ?_, fun hne => absurd h hne, ?_⟩
    · simp [setDefaultParameters, h, getParameter_setParameter]
    · have h1 : setDefaultParameters p =
          { p with params := setParameter p.params "Device" "auto" } := by
        simp [setDefaultParameters, h]
      rw [h1]
      simp [setDefaultParameters, getParameter_setParameter]
  · refine ⟨fun he => absurd he h, fun _ => ?_, ?_⟩ <;>
      simp [setDefaultParameters, h]

/-- C6 witness: on a node with no parameters the default is written; on a
node holding `"cpu"` nothing changes; double application equals single. -/
theorem setDefaultParameters_spec_witness :
    getParameter emptyParameterNode.params "Device" = ""
    ∧ getParameter (setDefaultParameters emptyParameterNode).params "Device"
        = "auto"
    ∧ getParameter fullParameterNode.params "Device" ≠ ""
    ∧ setDefaultParameters fullParameterNode = fullParameterNode
    ∧ setDefaultParameters (setDefaultParameters emptyParameterNode)
        = setDefaultParameters emptyParameterNode :=
  ⟨rfl, ((setDefaultParameters_spec emptyParameterNode).1 rfl).1,
   by decide,
   (setDefaultParameters_spec fullParameterNode).2.1 (by decide),
   (setDefaultParameters_spec emptyParameterNode).2.2⟩

/-- C7: a successful `process` run with an output segmentation requested, in
which the mask file reads back as a single segment, ends with the output
segmentation holding exactly one segment named `"brain"` carrying the fixed
anatomical terminology tag (SCT 12738006, Brain) and the fixed color
(0.9803921568627451, 0.9803921568627451, 0.8823529411764706). -/
theorem segmentation_single_brain_segment (env : Env) (iv : VolumeNode)
    (ov : Option VolumeNode) (sn : SegmentationNode) (dv : PyVal)
    (seg : Segment) (h1 : env.toolSucceeds = true)
    (h2 : env.readSegments = [seg]) :
    (process env (some iv) ov (some sn) dv).error = none
    ∧ (process env (some iv) ov (some sn) dv).outputSegmentation
        = some (SegmentationNode.mk
            [Segment.mk "brain" brainTerminologyTag brainColor]) := by
  cases ov <;> refine ⟨?_, ?_⟩ <;>
    simp [process, h1, h2, applyBrainTerminology]

/-- C7 witness: a concrete successful run whose mask read produces one
anonymous segment ends with the single tagged brain segment. -/
theorem segmentation_single_brain_segment_witness :
    cexEnv.toolSucceeds = true
    ∧ cexEnv.readSegments = [Segment.mk "Segment_1" "" (1, 0, 0)]
    ∧ (process cexEnv (some cexInputVolume) none
        (some (SegmentationNode.mk [])) PyVal.pyNone).error = none
    ∧ (process cexEnv (some cexInputVolume) none
        (some (SegmentationNode.mk [])) PyVal.pyNone).outputSegmentation
      = some (SegmentationNode.mk
          [Segment.mk "brain" brainTerminologyTag brainColor]) :=
  ⟨rfl, rfl, segmentation_single_brain_segment cexEnv cexInputVolume none
    (SegmentationNode.mk []) PyVal.pyNone (Segment.mk "Segment_1" "" (1, 0, 0))
    rfl rfl⟩

/-- C8: after any GUI refresh that actually runs, the Apply button is enabled
iff the parameter node holds an input volume reference and at least one of
the output volume or output segmentation references. -/
theorem apply_button_enabled_iff (s : WidgetState) (p : ParameterNode)
    (hp : s.parameterNode = some p)
    (hf : s.updatingGUIFromParameterNode = false) :
    ((updateGUIFromParameterNode s).ui.applyButtonEnabled = true ↔
      p.inputVolume.isSome = true
      ∧ (p.outputVolume.isSome = true ∨ p.outputSegmentation.isSome = true)) := by
  rw [updateGUIFromParameterNode_run s p hp hf]
  simp

/-- C8 witness: with an input volume and an output volume selected in the
parameter node, the refresh enables the Apply button. -/
theorem apply_button_enabled_iff_witness :
    idleWidget.parameterNode = some fullParameterNode
    ∧ idleWidget.updatingGUIFromParameterNode = false
    ∧ ((updateGUIFromParameterNode idleWidget).ui.applyButtonEnabled = true ↔
        fullParameterNode.inputVolume.isSome = true
        ∧ (fullParameterNode.outputVolume.isSome = true
           ∨ fullParameterNode.outputSegmentation.isSome = true)) :=
  ⟨rfl, rfl, apply_button_enabled_iff idleWidget fullParameterNode rfl rfl⟩

/-- C9: while a GUI refresh is in progress the re-entrancy flag is set, and in
any state with the flag set both `updateParameterNodeFromGUI` and a re-entrant
`updateGUIFromParameterNode` return without touching anything; consequently a
full GUI refresh never writes back to the parameter node. -/
theorem no_reentrant_writeback (s : WidgetState) :
    (s.updatingGUIFromParameterNode = true →
       updateParameterNodeFromGUI s = s ∧ updateGUIFromParameterNode s = s)
    ∧ (updateGUIFromParameterNode s).parameterNode = s.parameterNode := by
  constructor
  · intro h
    refine ⟨updateParameterNodeFromGUI_busy s h, ?_⟩
    cases hp : s.parameterNode <;> simp [updateGUIFromParameterNode, hp, h]
  · cases hp : s.parameterNode with
    | none => simp [updateGUIFromParameterNode, hp]
    | some p =>
      rcases Bool.eq_false_or_eq_true s.updatingGUIFromParameterNode with hf | hf
      · simp [updateGUIFromParameterNode, hp, hf]
      · rw [updateGUIFromParameterNode_run s p hp hf]

/-- C9 witness: in a concrete mid-refresh state (flag set) both sync
functions are identities, and a refresh from the idle state preserves the
parameter node. -/
theorem no_reentrant_writeback_witness :
    busyWidget.updatingGUIFromParameterNode = true
    ∧ updateParameterNodeFromGUI busyWidget = busyWidget
    ∧ updateGUIFromParameterNode busyWidget = busyWidget
    ∧ (updateGUIFromParameterNode idleWidget).parameterNode
        = idleWidget.parameterNode :=
  ⟨rfl, ((no_reentrant_writeback busyWidget).1 rfl).1,
   ((no_reentrant_writeback busyWidget).1 rfl).2,
   (no_reentrant_writeback idleWidget).2⟩

/-- C10: a `process` call with the device argument omitted or `None` (the
Python default) behaves identically to a call with device `"auto"`. -/
theorem none_device_same_as_auto (env : Env) (iv ov : Option VolumeNode)
    (os : Option SegmentationNode) :
    process env iv ov os PyVal.pyNone
      = process env iv ov os (PyVal.pyStr "auto") := rfl

end HDBET
